import Mathlib

/-!
Verification development for the Sentinel client (`static/js/script.js`).
The JavaScript is shallowly embedded: each handler becomes a pure Lean
function from its inputs (fetch outcome, DOM element presence, prior
state) to the state and effects it produces.  The single-threaded event
loop is modelled as a fold over an explicit event list, so interleavings
of sends, resolutions and session switches are plain traces.
-/

namespace Sentinel

/-- JavaScript `String.prototype.trim()`: strip leading and trailing
whitespace (implemented structurally over the character list so that it
evaluates inside the kernel). -/
def jsTrim (s : String) : String :=
  String.mk (((s.data.dropWhile Char.isWhitespace).reverse.dropWhile
    Char.isWhitespace).reverse)

/-- Chart payload: the `chart_data` field of a chat response and the
argument of `renderDynamicChart` (`type`, `title`, `label`, `labels`,
`values`). -/
structure ChartData where
  ctype : Option String
  title : Option String
  label : Option String
  labels : List String
  values : List ℚ
deriving DecidableEq

/-- The `data` object of a successful `POST /chat` envelope. -/
structure ChatRespData where
  session_id : Option String
  response : String
  chart_data : Option ChartData
deriving DecidableEq

/-- The uniform JSON envelope of `POST /chat`. -/
structure ChatEnvelope where
  success : Bool
  data : ChatRespData
  error : String
deriving DecidableEq

/-- How a pending `fetch` comes back: a parsed envelope, or a network
failure caught by the surrounding `try`/`catch`. -/
inductive ChatOutcome where
  | reply (env : ChatEnvelope)
  | network (errMsg : String)
deriving DecidableEq

/-- One rendered entry of the `#chatMessages` transcript: a message
bubble, or the typing-indicator placeholder appended by
`sendChatMessage` (tagged with the request it belongs to so that
`typingDiv.remove()` removes exactly that element). -/
inductive Entry where
  | msg (role content : String)
  | typing (reqId : Nat)
deriving DecidableEq

/-- An in-flight `POST /chat` request: `issuedSession` is the
`session_id` value that was serialised into the request body
(`currentSession` at send time). -/
structure PendingReq where
  reqId : Nat
  message : String
  issuedSession : Option String
deriving DecidableEq

/-- Client chat state: the `currentSession` global, the visible
transcript, the set of in-flight chat requests, a fresh-id counter,
the charts handed to `renderDynamicChart`, and how many times
`loadSessions` was re-triggered by session adoption. -/
structure ChatState where
  currentSession : Option String
  transcript : List Entry
  pending : List PendingReq
  nextReq : Nat
  chartRenders : List ChartData
  loadSessionsCalls : Nat
deriving DecidableEq

/-- Initial state: no session, empty transcript, nothing in flight. -/
def chatInit : ChatState :=
  { currentSession := none, transcript := [], pending := [], nextReq := 0,
    chartRenders := [], loadSessionsCalls := 0 }

/-- `addMessageToChat(role, content)`: appends one message bubble. -/
def addMessageToChat (role content : String) (st : ChatState) : ChatState :=
  { st with transcript := st.transcript ++ [Entry.msg role content] }

/-- The synchronous half of `sendChatMessage(message)`: append the user
bubble, append the typing placeholder, and issue the request carrying
`{message, session_id: currentSession}`.  No guard is taken before
issuing the request. -/
def sendStep (message : String) (st : ChatState) : ChatState :=
  { st with
    transcript := st.transcript ++ [Entry.msg "user" message, Entry.typing st.nextReq],
    pending := st.pending ++ [⟨st.nextReq, message, st.currentSession⟩],
    nextReq := st.nextReq + 1 }

/-- The continuation of `sendChatMessage` that runs when request
`reqId` comes back: remove the typing indicator, then either adopt the
returned session id (only when `currentSession` is null), append the
assistant bubble and render a chart, or append an inline error bubble. -/
def resolveStep (reqId : Nat) (outcome : ChatOutcome) (st : ChatState) : ChatState :=
  match st.pending.find? (fun p => p.reqId == reqId) with
  | none => st
  | some _ =>
    let st₁ : ChatState :=
      { st with
        pending := st.pending.filter (fun p => p.reqId ≠ reqId),
        transcript := st.transcript.filter (fun e => e ≠ Entry.typing reqId) }
    match outcome with
    | ChatOutcome.network e => addMessageToChat "assistant" ("Connection error: " ++ e) st₁
    | ChatOutcome.reply env =>
      if env.success then
        let st₂ : ChatState :=
          match env.data.session_id, st₁.currentSession with
          | some s, none =>
            { st₁ with currentSession := some s,
                       loadSessionsCalls := st₁.loadSessionsCalls + 1 }
          | _, _ => st₁
        let st₃ := addMessageToChat "assistant" env.data.response st₂
        match env.data.chart_data with
        | some cd => { st₃ with chartRenders := st₃.chartRenders ++ [cd] }
        | none => st₃
      else addMessageToChat "assistant" ("Error: " ++ env.error) st₁

/-- Success path of `loadSessionHistory(sessionId)`: set
`currentSession`, wipe `#chatMessages` (`innerHTML = ''`, which also
detaches any typing placeholder) and re-render the fetched history. -/
def selectSessionStep (sid : String) (history : List (String × String))
    (st : ChatState) : ChatState :=
  { st with
    currentSession := some sid,
    transcript := history.map (fun rc => Entry.msg rc.1 rc.2) }

/-- Events of the chat event loop: a send, the resolution of an
in-flight request, or a session switch via the session selector. -/
inductive ChatEvent where
  | send (message : String)
  | resolve (reqId : Nat) (outcome : ChatOutcome)
  | selectSession (sid : String) (history : List (String × String))
deriving DecidableEq

/-- One step of the single-threaded event loop. -/
def chatStep (st : ChatState) : ChatEvent → ChatState
  | ChatEvent.send m => sendStep m st
  | ChatEvent.resolve r oc => resolveStep r oc st
  | ChatEvent.selectSession sid h => selectSessionStep sid h st

/-- A trace of interleaved events, run left to right. -/
def chatRun (st : ChatState) (evs : List ChatEvent) : ChatState :=
  evs.foldl chatStep st

/-- The `#sendBtn` click handler of `initChat`: trims the input and
calls `sendChatMessage` only when the trimmed text is non-empty. -/
def handleSendClick (inputValue : String) (st : ChatState) : ChatState :=
  let msg := jsTrim inputValue
  if msg = "" then st else sendStep msg st

/-- The `#chatInput` keypress handler of `initChat`: on Enter without
Shift, trims and sends only a non-empty message. -/
def handleChatKeypress (key : String) (shiftKey : Bool) (inputValue : String)
    (st : ChatState) : ChatState :=
  if key = "Enter" ∧ ¬shiftKey then
    let msg := jsTrim inputValue
    if msg = "" then st else sendStep msg st
  else st

/-- `sendSuggestion(query)`: forwards its argument to
`sendChatMessage` with no trimming and no emptiness check. -/
def sendSuggestion (query : String) (st : ChatState) : ChatState :=
  sendStep query st

/-- `quickAnalysis(query)`: after navigating to the chat screen,
forwards its argument to `sendChatMessage`, again with no check. -/
def quickAnalysis (query : String) (st : ChatState) : ChatState :=
  sendStep query st

/-! ## Chart registry (`renderDynamicChart`, `createDemoChart`, `loadOverviewChart`) -/

/-- The fixed six-colour palette declared in `renderDynamicChart`. -/
def palette : List String :=
  ["#00d4ff", "#ffb700", "#ff6b6b", "#00ff88", "#a855f7", "#ec4899"]

/-- The single-dataset Chart.js configuration built by a render call:
chart type, labels, dataset label, numeric data, and the
`backgroundColor` array handed to the library. -/
structure ChartConfig where
  ctype : String
  labels : List String
  datasetLabel : String
  data : List ℚ
  backgroundColor : List String
deriving DecidableEq

/-- The configuration `renderDynamicChart` builds from its argument;
in particular `backgroundColor: colors.slice(0, chartData.labels.length)`
is `palette.take` (JavaScript `slice` truncates, it never repeats). -/
def dynamicChartConfig (cd : ChartData) : ChartConfig :=
  { ctype := cd.ctype.getD "bar",
    labels := cd.labels,
    datasetLabel := cd.label.getD "Value",
    data := cd.values,
    backgroundColor := palette.take cd.labels.length }

/-- A constructed Chart.js instance: identity, the canvas it draws on,
and its configuration. -/
structure ChartInstance where
  id : Nat
  surface : String
  config : ChartConfig
deriving DecidableEq

/-- Presence of the three DOM elements `renderDynamicChart` looks up:
`#chartPanel`, `#chartTitle`, `#dynamicChart`. -/
structure DynDom where
  panel : Bool
  titleEl : Bool
  ctx : Bool
deriving DecidableEq

/-- State of the dynamic-chart slot: every instance ever constructed
(in order), the ids that have been `destroy()`ed, the `dynamicChart`
global (the id currently bound to the slot), panel visibility, and the
`#chartTitle` text. -/
structure RegistryState where
  nextId : Nat
  charts : List ChartInstance
  destroyed : List Nat
  dynamicSlot : Option Nat
  panelVisible : Bool
  chartTitle : String
deriving DecidableEq

/-- The instances constructed so far and not yet destroyed. -/
def liveCharts (s : RegistryState) : List ChartInstance :=
  s.charts.filter (fun c => c.id ∉ s.destroyed)

/-- The live instances drawing on a given canvas. -/
def liveOn (s : RegistryState) (surface : String) : List ChartInstance :=
  (liveCharts s).filter (fun c => c.surface = surface)

/-- `renderDynamicChart(chartData)`: bail out if `#chartPanel` or
`#dynamicChart` is missing; otherwise show the panel, set the title
(this line throws if `#chartTitle` is missing — modelled as `.error`),
destroy the previous slot occupant if any, and construct the new
instance on the `dynamicChart` canvas. -/
def renderDynamicChart (dom : DynDom) (cd : ChartData) (s : RegistryState) :
    Except String RegistryState :=
  if dom.panel = false ∨ dom.ctx = false then Except.ok s
  else if dom.titleEl = false then Except.error "TypeError: titleEl is null"
  else
    let s₁ : RegistryState :=
      { s with panelVisible := true, chartTitle := cd.title.getD "Analysis Chart" }
    let s₂ : RegistryState :=
      match s₁.dynamicSlot with
      | some i => { s₁ with destroyed := s₁.destroyed ++ [i] }
      | none => s₁
    let inst : ChartInstance := ⟨s₂.nextId, "dynamicChart", dynamicChartConfig cd⟩
    Except.ok { s₂ with
      charts := s₂.charts ++ [inst],
      dynamicSlot := some inst.id,
      nextId := s₂.nextId + 1 }

/-- `closeChart()`: hide the panel and destroy the slot occupant;
the `dynamicChart` global is nulled. -/
def closeChart (s : RegistryState) : RegistryState :=
  match s.dynamicSlot with
  | some i =>
    { s with panelVisible := false, destroyed := s.destroyed ++ [i],
             dynamicSlot := none }
  | none => { s with panelVisible := false }

/-- The per-type colour table of `createDemoChart`
(`colors[type] || ['#00d4ff']`). -/
def demoColors (t : String) : List String :=
  if t = "gender" then ["#ff6b6b", "#00d4ff", "#ffb700"]
  else if t = "caste" then ["#00ff88", "#ffb700", "#ff6b6b", "#a855f7"]
  else if t = "income" then ["#ff6b6b", "#ffb700", "#00d4ff", "#00ff88"]
  else ["#00d4ff"]

/-- `createDemoChart(canvasId, data, type, chartRef, setChart)`: no-op
when the canvas is absent (the ref is not reassigned); otherwise the
previous occupant is destroyed and the fresh instance is stored through
`setChart`.  `data` is the fetched object as an ordered key/value list
(`Object.keys` order); values are the `avg_silence` fields.  Returns
the new value of the chart ref and the ids destroyed by the call. -/
def createDemoChart (canvasId : String) (ctxPresent : Bool)
    (data : List (String × ℚ)) (t : String) (chartRef : Option ChartInstance)
    (freshId : Nat) : Option ChartInstance × List Nat :=
  if ctxPresent = false then (chartRef, [])
  else
    let destroyedIds := match chartRef with
      | some c => [c.id]
      | none => []
    let inst : ChartInstance :=
      ⟨freshId, canvasId,
       { ctype := "bar", labels := data.map Prod.fst, datasetLabel := "",
         data := data.map Prod.snd, backgroundColor := demoColors t }⟩
    (some inst, destroyedIds)

/-- The `data` object of `GET /demographic-silence`: each grouping maps
a category label to its `avg_silence` score (ordered key/value lists). -/
structure DemoData where
  by_gender : List (String × ℚ)
  by_caste : List (String × ℚ)
  by_income : List (String × ℚ)
deriving DecidableEq

/-- Envelope of `GET /demographic-silence`. -/
structure DemoEnvelope where
  success : Bool
  data : DemoData
  error : String
deriving DecidableEq

/-- Outcome of a `fetch`: a parsed envelope, or a network failure. -/
inductive Fetched (α : Type) where
  | ok (env : α)
  | network (msg : String)
deriving DecidableEq

/-- `loadOverviewChart()`: on success, if the `#overviewChart` canvas is
absent return before touching the chart; otherwise destroy the previous
overview chart and build the fixed four-bucket income bar chart, reading
`incomeData[l]?.avg_silence || 0`.  Returns the new value of the
`overviewChart` global and the destroyed ids. -/
def loadOverviewChart (ctxPresent : Bool) (r : Fetched DemoEnvelope)
    (overviewChart : Option ChartInstance) (freshId : Nat) :
    Option ChartInstance × List Nat :=
  match r with
  | Fetched.network _ => (overviewChart, [])
  | Fetched.ok env =>
    if env.success then
      if ctxPresent = false then (overviewChart, [])
      else
        let destroyedIds := match overviewChart with
          | some c => [c.id]
          | none => []
        let labels := ["0-3L", "3-6L", "6-10L", "10L+"]
        let scores := labels.map (fun l => (env.data.by_income.lookup l).getD 0)
        (some ⟨freshId, "overviewChart",
              { ctype := "bar", labels := labels,
                datasetLabel := "Avg Silence Score", data := scores,
                backgroundColor := ["#ff6b6b", "#ffb700", "#00d4ff", "#00ff88"] }⟩,
         destroyedIds)
    else (overviewChart, [])

/-! ## Navigation (`initNavigation`, `loadScreenData`) -/

/-- The static screen-id → title mapping (`pageNames`). -/
def pageNames : List (String × String) :=
  [("dashboard", "Command Center"), ("chat", "AI Analysis"),
   ("search", "Case Search"), ("demographics", "Demographics"),
   ("geography", "Geographic Analysis"), ("categories", "Category Analysis"),
   ("temporal", "Temporal Analysis"), ("report", "Full Report")]

/-- Modelled from the spec: the set of `.screen` elements in the page
markup (`static/index.html`, not under `src/`); per §4.1 the screen ids
are exactly the keys of the screen-id → title mapping. -/
def screenElems : List String := pageNames.map Prod.fst

/-- The screen ids with a `loadScreenData` refresh case; the other
screens fall through the `switch` with no action. -/
def dataScreens : List String :=
  ["dashboard", "demographics", "geography", "categories", "temporal"]

/-- `loadScreenData(screenId)`: which refresh actions fire (as a list,
to count invocations). -/
def loadScreenData (id : String) : List String :=
  if id ∈ dataScreens then [id] else []

/-- Navigation state: the screens carrying the `active` class, the
header title, and the log of refresh actions fired so far. -/
structure NavState where
  activeScreens : List String
  pageTitle : String
  refreshLog : List String
deriving DecidableEq

/-- The nav click handler: remove `active` from every screen, add it to
`getElementById(screenId)` when that element exists, set the header
title to `pageNames[screenId] || screenId`, and call
`loadScreenData(screenId)`. -/
def selectScreen (id : String) (s : NavState) : NavState :=
  { activeScreens := if id ∈ screenElems then [id] else [],
    pageTitle := (pageNames.lookup id).getD id,
    refreshLog := s.refreshLog ++ loadScreenData id }

/-- A sequence of nav clicks, run left to right. -/
def navRun (s : NavState) (ids : List String) : NavState :=
  ids.foldl (fun st i => selectScreen i st) s

/-- Page state before any navigation: the dashboard screen is active. -/
def navInit : NavState :=
  { activeScreens := ["dashboard"], pageTitle := "Command Center", refreshLog := [] }

/-! ## Number formatting (JavaScript semantics used by the views) -/

/-- `Math.round(x)`: the floor of `x + 1/2` (round half towards +∞). -/
def jsRound (q : ℚ) : ℤ := ⌊q + 1 / 2⌋

/-- Zero-pad a group of up to three digits (used between separators of
`toLocaleString`). -/
def pad3 (m : Nat) : String :=
  if m < 10 then "00" ++ toString m
  else if m < 100 then "0" ++ toString m
  else toString m

/-- Fuel-indexed digit grouping: insert a comma every three digits from
the right. -/
def groupAux : Nat → Nat → String
  | 0, n => toString n
  | fuel + 1, n =>
    if n < 1000 then toString n
    else groupAux fuel (n / 1000) ++ "," ++ pad3 (n % 1000)

/-- `n.toLocaleString()` for a non-negative integer (en-US grouping). -/
def groupThousands (n : Nat) : String := groupAux n n

/-- `z.toLocaleString()` for an integer. -/
def intLocaleString (z : ℤ) : String :=
  if z < 0 then "-" ++ groupThousands z.natAbs else groupThousands z.natAbs

/-- Plain stringification of an integer (`textContent = number`). -/
def intToString (z : ℤ) : String :=
  if z < 0 then "-" ++ toString z.natAbs else toString z.natAbs

/-- Fuel-indexed decimal expansion of a fraction in `[0, 1)`. -/
def fracDigits : Nat → ℚ → String
  | 0, _ => ""
  | fuel + 1, f =>
    if f = 0 then ""
    else
      let f10 := f * 10
      toString (⌊f10⌋.toNat) ++ fracDigits fuel (f10 - (⌊f10⌋ : ℚ))

/-- Stringification of a non-negative JavaScript number whose value is
a decimal-representable rational (integers print with no fraction
part, as in template-literal interpolation). -/
def posNumToString (q : ℚ) : String :=
  let ip := ⌊q⌋.toNat
  let fr := q - (⌊q⌋ : ℚ)
  if fr = 0 then toString ip else toString ip ++ "." ++ fracDigits 17 fr

/-- Stringification of a JavaScript number (template-literal / string
coercion semantics for decimal-representable rationals). -/
def jsNumToString (q : ℚ) : String :=
  if q < 0 then "-" ++ posNumToString (-q) else posNumToString q

/-! ## Dashboard (`loadDashboard`) -/

/-- The `data` object of `GET /stats`. -/
structure StatsData where
  total_complaints : Nat
  silence_rate : ℚ
  avg_silence_score : ℚ
  avg_days_in_system : ℚ
deriving DecidableEq

/-- Envelope of `GET /stats`. -/
structure StatsEnvelope where
  success : Bool
  data : StatsData
  error : String
deriving DecidableEq

/-- Observable effects of one `loadDashboard()` call: the
`textContent` writes (element id, text), the `console.error` log, and
whether `loadOverviewChart()` was invoked. -/
structure DashEffects where
  writes : List (String × String)
  consoleErrors : List String
  overviewLoaded : Bool
deriving DecidableEq

/-- `loadDashboard()`: on a successful envelope, write the stat cards
(deriving `silenced = Math.round(total * rate / 100)`) and the alert
text, then chain `loadOverviewChart()`; on `success: false`, do nothing
at all; on a network failure, log to the console only. -/
def loadDashboard (r : Fetched StatsEnvelope) : DashEffects :=
  match r with
  | Fetched.network m => ⟨[], ["Dashboard error: " ++ m], false⟩
  | Fetched.ok env =>
    if env.success then
      let d := env.data
      let silenced := jsRound ((d.total_complaints : ℚ) * d.silence_rate / 100)
      { writes :=
          [("totalCases", groupThousands d.total_complaints),
           ("headerCases", groupThousands d.total_complaints),
           ("silencedCount", intLocaleString silenced),
           ("silenceRate", jsNumToString d.silence_rate ++ "%"),
           ("headerSilenced", intLocaleString silenced),
           ("avgScore", jsNumToString d.avg_silence_score),
           ("avgDays", intToString (jsRound d.avg_days_in_system)),
           ("alertText",
            jsNumToString d.silence_rate ++ "% of complaints (" ++
              intLocaleString silenced ++
              " cases) are being systematically ignored")],
        consoleErrors := [], overviewLoaded := true }
    else ⟨[], [], false⟩

/-! ## Search (`performSearch`) -/

/-- One row of `POST /search` results. -/
structure SearchResultRow where
  rid : Option String
  text : String
  silence_score : ℚ
  category : String
  gender : String
  income : String
  ward : String
deriving DecidableEq

/-- Envelope of `POST /search`. -/
structure SearchEnvelope where
  success : Bool
  results : List SearchResultRow
  error : String
deriving DecidableEq

/-- The CSS class of a result score badge
(`>= 70` high, `>= 50` medium, else low). -/
def scoreClass (score : ℚ) : String :=
  if score ≥ 70 then "high" else if score ≥ 50 then "medium" else "low"

/-- The mutually exclusive states the search results panel can end in. -/
inductive PanelState where
  | untouched
  | loading
  | empty
  | populated (rows : List (SearchResultRow × String))
  | errorState (msg : String)
deriving DecidableEq

/-- Observable effects of one `performSearch()` call: the final panel
state, any `alert` raised, and the request body issued
(`query`, `top_k`, `silence_threshold`). -/
structure SearchEffects where
  panel : PanelState
  alertMsg : Option String
  request : Option (String × Nat × Option Nat)
deriving DecidableEq

/-- `performSearch()`: an empty trimmed query alerts and returns
without touching the panel; otherwise the panel shows the loading
state, the request is issued, and the result is rendered — empty state
on zero results, populated cards otherwise, an explicit error state on
a network failure, and (there being no `else` branch for the envelope)
the loading state is simply left in place on `success: false`. -/
def performSearch (query : String) (silencedOnly : Bool)
    (r : Fetched SearchEnvelope) : SearchEffects :=
  let q := jsTrim query
  if q = "" then ⟨PanelState.untouched, some "Please enter a search query", none⟩
  else
    let req := some (q, 20, if silencedOnly then some 70 else none)
    match r with
    | Fetched.network m =>
      ⟨PanelState.errorState ("Error: " ++ m), none, req⟩
    | Fetched.ok env =>
      if env.success then
        if env.results.length = 0 then ⟨PanelState.empty, none, req⟩
        else
          ⟨PanelState.populated
            (env.results.map (fun row => (row, scoreClass row.silence_score))),
           none, req⟩
      else ⟨PanelState.loading, none, req⟩

/-! ## Categories (`loadCategories`) -/

/-- One row of `GET /complaint-types`. -/
structure CategoryRow where
  category : String
  silenced_pct : ℚ
deriving DecidableEq

/-- Envelope of `GET /complaint-types` (`data` is the ordered row
sequence). -/
structure CatEnvelope where
  success : Bool
  data : List CategoryRow
  error : String
deriving DecidableEq

/-- Presence of the DOM elements `loadCategories` looks up:
`#categoryChart` and `#catFindings`. -/
structure CatDom where
  ctx : Bool
  findings : Bool
deriving DecidableEq

/-- Observable effects of one `loadCategories()` call: the labels/data
of the chart constructed (if any), whether the previous category chart
was destroyed, the findings markup written (`none` = left untouched),
and the console log. -/
structure CatEffects where
  newChart : Option (List String × List ℚ)
  destroyedOld : Bool
  findingsHtml : Option String
  consoleErrors : List String
deriving DecidableEq

/-- The findings markup built from the first and last category rows. -/
def catFindingsHtml (most least : CategoryRow) : String :=
  "<li><strong>" ++ most.category ++ "</strong> complaints are most ignored (" ++
    jsNumToString most.silenced_pct ++ "% silenced)</li>" ++
  "<li><strong>" ++ least.category ++ "</strong> complaints are least ignored (" ++
    jsNumToString least.silenced_pct ++ "% silenced)</li>" ++
  "<li>Critical infrastructure issues face systematic deprioritization</li>"

/-- `loadCategories()`: on success, build the category bar chart over
`categories.map(...)` (destroying the previous one) when the canvas is
present, then compute the findings from `categories[0]` and
`categories[categories.length - 1]`.  On an empty sequence,
`categories[0]` is `undefined` and reading `.category` throws; the
`catch` logs to the console, leaving the chart constructed and the
findings untouched, and no error reaches the user.  A network failure
likewise only logs. -/
def loadCategories (dom : CatDom) (hadChart : Bool) (r : Fetched CatEnvelope) :
    CatEffects :=
  match r with
  | Fetched.network m => ⟨none, false, none, ["Categories error: " ++ m]⟩
  | Fetched.ok env =>
    if env.success then
      let cats := env.data
      let chartPart : Option (List String × List ℚ) × Bool :=
        if dom.ctx then
          (some (cats.map (fun c => c.category), cats.map (fun c => c.silenced_pct)),
           hadChart)
        else (none, false)
      if dom.findings then
        match cats.head? with
        | none =>
          ⟨chartPart.1, chartPart.2, none,
           ["Categories error: TypeError: most is undefined"]⟩
        | some most =>
          let least := cats.getLast?.getD most
          ⟨chartPart.1, chartPart.2, some (catFindingsHtml most least), []⟩
      else ⟨chartPart.1, chartPart.2, none, []⟩
    else ⟨none, false, none, []⟩

/-! ## Theorems -/

/-- Claim C1, as stated, is false on the code: `sendChatMessage` takes
no single-flight guard, so a second send issued while the first
response is pending is fired immediately — after two sends and no
resolution, two chat requests are in flight, neither queued nor
rejected. -/
theorem C1_counterexample :
    ¬ (chatRun chatInit
        [ChatEvent.send "first", ChatEvent.send "second"]).pending.length ≤ 1 := by
  decide

/-- Claim C1 (amended): concurrent sends are fired, but the client
never adopts two distinct backend session ids for one conversation —
a chat response's session id is adopted only when `currentSession` is
null, so once a session id is current no resolving chat request can
overwrite it. -/
theorem C1_session_adoption_unique (st : ChatState) (sid : String) (reqId : Nat)
    (oc : ChatOutcome) (h : st.currentSession = some sid) :
    (chatStep st (ChatEvent.resolve reqId oc)).currentSession = some sid := by
  show (resolveStep reqId oc st).currentSession = some sid
  unfold resolveStep
  cases hf : st.pending.find? (fun p => p.reqId == reqId) with
  | none => simp [h]
  | some p =>
    cases oc with
    | network e => simp [addMessageToChat, h]
    | reply env =>
      by_cases hs : env.success
      · cases hsid : env.data.session_id <;>
          cases hcd : env.data.chart_data <;>
            simp [hs, hsid, hcd, addMessageToChat, h]
      · simp [hs, addMessageToChat, h]

/-- Witness for C1: a resolving request leaves an established session
id untouched at a concrete state. -/
theorem C1_session_adoption_unique_witness :
    (chatStep { chatInit with currentSession := some "s1" }
      (ChatEvent.resolve 0 (ChatOutcome.network "offline"))).currentSession
      = some "s1" :=
  C1_session_adoption_unique _ "s1" 0 _ rfl

/-- Claim C2, as stated, is false on the code: the in-flight request is
issued for session `s1` (its body records `session_id = "s1"`), the
user then switches to session `s2`, and when the response arrives
`sendChatMessage` appends it to the now-current transcript anyway —
the stale reply is the sole visible message of the `s2` transcript. -/
theorem C2_counterexample :
    (chatRun chatInit [ChatEvent.selectSession "s1" [],
        ChatEvent.send "question"]).pending
      = [⟨0, "question", some "s1"⟩] ∧
    (chatRun chatInit [ChatEvent.selectSession "s1" [],
        ChatEvent.send "question", ChatEvent.selectSession "s2" [],
        ChatEvent.resolve 0
          (ChatOutcome.reply ⟨true, ⟨some "s1", "stale reply", none⟩, ""⟩)]).currentSession
      = some "s2" ∧
    (chatRun chatInit [ChatEvent.selectSession "s1" [],
        ChatEvent.send "question", ChatEvent.selectSession "s2" [],
        ChatEvent.resolve 0
          (ChatOutcome.reply ⟨true, ⟨some "s1", "stale reply", none⟩, ""⟩)]).transcript
      = [Entry.msg "assistant" "stale reply"] := by
  refine ⟨by decide, by decide, by decide⟩

/-- Claim C2 (amended): each in-flight request does carry the session
id it was issued for (serialised into its body), but arriving
successful responses are appended to the visible transcript
unconditionally — no comparison against the now-current session id is
made, so stale responses are rendered rather than discarded. -/
theorem C2_response_appended_unconditionally (st : ChatState) (reqId : Nat)
    (env : ChatEnvelope) (p : PendingReq)
    (hp : st.pending.find? (fun q => q.reqId == reqId) = some p)
    (hs : env.success = true) :
    (chatStep st (ChatEvent.resolve reqId (ChatOutcome.reply env))).transcript =
      st.transcript.filter (fun e => e ≠ Entry.typing reqId) ++
        [Entry.msg "assistant" env.data.response] := by
  show (resolveStep reqId (ChatOutcome.reply env) st).transcript = _
  unfold resolveStep
  rw [hp]
  cases hsid : env.data.session_id <;>
    cases hcur : st.currentSession <;>
      cases hcd : env.data.chart_data <;>
        simp [hs, hsid, hcur, hcd, addMessageToChat]

/-- Witness for C2 (amended): a response issued for session `s1`
arriving while `s2` is current is still appended. -/
theorem C2_response_appended_unconditionally_witness :
    (chatStep
        { chatInit with currentSession := some "s2",
                        pending := [⟨0, "question", some "s1"⟩] }
        (ChatEvent.resolve 0
          (ChatOutcome.reply ⟨true, ⟨some "s1", "stale reply", none⟩, ""⟩))).transcript =
      ([] : List Entry).filter (fun e => e ≠ Entry.typing 0) ++
        [Entry.msg "assistant" "stale reply"] :=
  C2_response_appended_unconditionally _ 0 _ ⟨0, "question", some "s1"⟩ (by decide) rfl

/-- Claim C6, as stated, is false on the code: the empty-after-trim
guard lives only in the manual-entry handlers; `sendSuggestion` (and
`quickAnalysis`) forwards its argument to `sendChatMessage` unchecked,
and `sendChatMessage` itself performs no check, so a whitespace-only
message sent through that path appends a user bubble and issues a
backend request. -/
theorem C6_counterexample :
    jsTrim " " = "" ∧
    (sendSuggestion " " chatInit).pending.length = 1 ∧
    Entry.msg "user" " " ∈ (sendSuggestion " " chatInit).transcript := by
  refine ⟨by decide, by decide, by decide⟩

/-- Claim C6 (amended): on the manual-entry paths — the send-button
click handler and the Enter keypress handler — an input that is empty
after trimming is a complete no-op: no user message, no placeholder,
no request; the unchecked paths are `sendSuggestion`/`quickAnalysis`. -/
theorem C6_manual_entry_noop (inputValue key : String) (shiftKey : Bool)
    (st : ChatState) (h : jsTrim inputValue = "") :
    handleSendClick inputValue st = st ∧
    handleChatKeypress key shiftKey inputValue st = st := by
  constructor
  · unfold handleSendClick
    simp [h]
  · unfold handleChatKeypress
    by_cases hk : key = "Enter" ∧ ¬shiftKey <;> simp [hk, h]

/-- Witness for C6 (amended): a whitespace-only manual entry changes
nothing. -/
theorem C6_manual_entry_noop_witness :
    handleSendClick "   " chatInit = chatInit ∧
    handleChatKeypress "Enter" false "   " chatInit = chatInit :=
  C6_manual_entry_noop "   " "Enter" false chatInit (by decide)

/-- Well-formedness of the dynamic-slot registry state, true of every
state the page can reach: constructed ids are below the fresh-id
counter and are pairwise distinct, every live chart on the
`dynamicChart` canvas is the one the `dynamicChart` global points to,
and destroyed or slot-held ids are below the counter. -/
def regInv (s : RegistryState) : Prop :=
  (∀ c ∈ s.charts, c.id < s.nextId) ∧
  (∀ c₁ ∈ s.charts, ∀ c₂ ∈ s.charts, c₁.id = c₂.id → c₁ = c₂) ∧
  (∀ c ∈ liveCharts s, c.surface = "dynamicChart" → s.dynamicSlot = some c.id) ∧
  (∀ i ∈ s.destroyed, i < s.nextId) ∧
  (∀ i, s.dynamicSlot = some i → i < s.nextId)

/-- The registry state at page load: no chart constructed. -/
def regInit : RegistryState :=
  { nextId := 0, charts := [], destroyed := [], dynamicSlot := none,
    panelVisible := false, chartTitle := "" }

theorem liveOn_filter (s : RegistryState) (surf : String) :
    liveOn s surf =
      s.charts.filter
        (fun c => decide (c.surface = surf) && decide (c.id ∉ s.destroyed)) := by
  unfold liveOn liveCharts
  rw [List.filter_filter]

/-- Computation of `renderDynamicChart` when all three DOM elements
are present: destroy the slot occupant (if any), construct the new
instance, bind it. -/
theorem renderDynamic_eq (dom : DynDom) (cd : ChartData) (s : RegistryState)
    (hp : dom.panel = true) (ht : dom.titleEl = true) (hc : dom.ctx = true) :
    renderDynamicChart dom cd s = Except.ok
      { nextId := s.nextId + 1,
        charts := s.charts ++ [⟨s.nextId, "dynamicChart", dynamicChartConfig cd⟩],
        destroyed := s.destroyed ++
          (match s.dynamicSlot with | some i => [i] | none => []),
        dynamicSlot := some s.nextId,
        panelVisible := true,
        chartTitle := cd.title.getD "Analysis Chart" } := by
  unfold renderDynamicChart
  rw [hp, ht, hc]
  cases hslot : s.dynamicSlot <;> simp [hslot]

/-- Auxiliary: under the registry invariant, every previously
constructed chart on the `dynamicChart` canvas is dead once the slot
occupant's id is in the destroyed set. -/
theorem filter_old_dyn_nil (s : RegistryState) (d : List Nat)
    (inv3 : ∀ c ∈ liveCharts s, c.surface = "dynamicChart" → s.dynamicSlot = some c.id)
    (hsub : ∀ i ∈ s.destroyed, i ∈ d)
    (hkill : ∀ i, s.dynamicSlot = some i → i ∈ d) :
    s.charts.filter
      (fun c => decide (c.surface = "dynamicChart") && decide (c.id ∉ d)) = [] := by
  apply List.filter_eq_nil_iff.mpr
  intro c hcmem
  simp only [Bool.and_eq_true, decide_eq_true_eq, not_and]
  intro hsurf hnd
  by_cases hdead : c.id ∈ s.destroyed
  · exact hnd (hsub _ hdead)
  · have hlive : c ∈ liveCharts s := by
      unfold liveCharts
      exact List.mem_filter.mpr ⟨hcmem, by simpa using hdead⟩
    exact hnd (hkill _ (inv3 c hlive hsurf))

/-- One successful `renderDynamicChart` call from a well-formed state:
it returns, preserves well-formedness, binds the slot to the freshly
constructed instance, and leaves that instance as the only live chart
on the `dynamicChart` canvas. -/
theorem renderDynamic_step (dom : DynDom) (cd : ChartData) (s : RegistryState)
    (hp : dom.panel = true) (ht : dom.titleEl = true) (hc : dom.ctx = true)
    (hinv : regInv s) :
    ∃ s', renderDynamicChart dom cd s = Except.ok s' ∧ regInv s' ∧
      s'.nextId = s.nextId + 1 ∧
      s'.dynamicSlot = some s.nextId ∧
      liveOn s' "dynamicChart" =
        [⟨s.nextId, "dynamicChart", dynamicChartConfig cd⟩] := by
  obtain ⟨inv1, inv2, inv3, inv4, inv5⟩ := hinv
  refine ⟨_, renderDynamic_eq dom cd s hp ht hc, ?_⟩
  set dd : List Nat := (match s.dynamicSlot with | some i => [i] | none => []) with hdd
  have hdlt : ∀ i ∈ s.destroyed ++ dd, i < s.nextId := by
    intro i hi
    rcases List.mem_append.mp hi with hl | hr
    · exact inv4 i hl
    · cases hslot : s.dynamicSlot with
      | none => rw [hdd, hslot] at hr; simp at hr
      | some j =>
        rw [hdd, hslot] at hr
        simp only [List.mem_singleton] at hr
        exact hr ▸ inv5 j hslot
  have hsub : ∀ i ∈ s.destroyed, i ∈ s.destroyed ++ dd :=
    fun i hi => List.mem_append.mpr (Or.inl hi)
  have hkill : ∀ i, s.dynamicSlot = some i → i ∈ s.destroyed ++ dd := by
    intro i hi
    refine List.mem_append.mpr (Or.inr ?_)
    rw [hdd, hi]
    exact List.mem_singleton.mpr rfl
  have hlive : liveOn
      { nextId := s.nextId + 1,
        charts := s.charts ++ [⟨s.nextId, "dynamicChart", dynamicChartConfig cd⟩],
        destroyed := s.destroyed ++ dd,
        dynamicSlot := some s.nextId,
        panelVisible := true,
        chartTitle := cd.title.getD "Analysis Chart" } "dynamicChart" =
      [⟨s.nextId, "dynamicChart", dynamicChartConfig cd⟩] := by
    rw [liveOn_filter]
    simp only [List.filter_append]
    rw [filter_old_dyn_nil s (s.destroyed ++ dd) inv3 hsub hkill]
    have hfresh : s.nextId ∉ s.destroyed ++ dd :=
      fun hmem => Nat.lt_irrefl _ (hdlt _ hmem)
    simp only [List.mem_append, not_or] at hfresh
    simp [hfresh.1, hfresh.2]
  refine ⟨⟨?_, ?_, ?_, ?_, ?_⟩, rfl, rfl, hlive⟩
  · intro c hcmem
    rcases List.mem_append.mp hcmem with hl | hr
    · exact Nat.lt_succ_of_lt (inv1 c hl)
    · simp only [List.mem_singleton] at hr
      rw [hr]
      exact Nat.lt_succ_self _
  · intro c₁ h₁ c₂ h₂ hid
    rcases List.mem_append.mp h₁ with hl₁ | hr₁ <;>
      rcases List.mem_append.mp h₂ with hl₂ | hr₂
    · exact inv2 c₁ hl₁ c₂ hl₂ hid
    · simp only [List.mem_singleton] at hr₂
      rw [hr₂] at hid
      exact absurd hid (Nat.ne_of_lt (inv1 c₁ hl₁))
    · simp only [List.mem_singleton] at hr₁
      rw [hr₁] at hid
      exact absurd hid.symm (Nat.ne_of_lt (inv1 c₂ hl₂))
    · simp only [List.mem_singleton] at hr₁ hr₂
      rw [hr₁, hr₂]
  · intro c hcmem hsurf
    have hcl : c ∈ liveOn
        { nextId := s.nextId + 1,
          charts := s.charts ++ [⟨s.nextId, "dynamicChart", dynamicChartConfig cd⟩],
          destroyed := s.destroyed ++ dd,
          dynamicSlot := some s.nextId,
          panelVisible := true,
          chartTitle := cd.title.getD "Analysis Chart" } "dynamicChart" := by
      unfold liveOn
      exact List.mem_filter.mpr ⟨hcmem, by simp [hsurf]⟩
    rw [hlive] at hcl
    simp only [List.mem_singleton] at hcl
    rw [hcl]
  · intro i hmem
    exact Nat.lt_succ_of_lt (hdlt i hmem)
  · intro i hi
    simp only [Option.some_inj] at hi
    show i < s.nextId + 1
    omega

/-- Claim C3: rendering into a slot that already holds a live chart
instance disposes it before the new one is constructed — calling
`renderDynamicChart` twice (from any well-formed state, with the
rendering surface present) leaves exactly one live instance on the
`dynamicChart` canvas, bound to the slot; and `createDemoChart` on an
occupied slot destroys exactly the old occupant and rebinds the slot
to the single new instance. -/
theorem C3_render_twice_one_live (dom : DynDom) (cd1 cd2 : ChartData)
    (s : RegistryState) (hp : dom.panel = true) (ht : dom.titleEl = true)
    (hc : dom.ctx = true) (hinv : regInv s) :
    (∃ s1 s2, renderDynamicChart dom cd1 s = Except.ok s1 ∧
      renderDynamicChart dom cd2 s1 = Except.ok s2 ∧
      liveOn s2 "dynamicChart" =
        [⟨s1.nextId, "dynamicChart", dynamicChartConfig cd2⟩] ∧
      s2.dynamicSlot = some s1.nextId ∧
      (liveOn s2 "dynamicChart").length = 1) ∧
    (∀ (cid : String) (d : List (String × ℚ)) (t : String)
        (old : ChartInstance) (fid : Nat),
      createDemoChart cid true d t (some old) fid =
        (some ⟨fid, cid,
          { ctype := "bar", labels := d.map Prod.fst, datasetLabel := "",
            data := d.map Prod.snd, backgroundColor := demoColors t }⟩,
         [old.id])) := by
  constructor
  · obtain ⟨s1, he1, hinv1, _, _, _⟩ := renderDynamic_step dom cd1 s hp ht hc hinv
    obtain ⟨s2, he2, _, _, hslot2, hlive2⟩ :=
      renderDynamic_step dom cd2 s1 hp ht hc hinv1
    exact ⟨s1, s2, he1, he2, hlive2, hslot2, by rw [hlive2]; rfl⟩
  · intro cid d t old fid
    rfl

/-- Witness for C3: two renders from the pristine page state leave one
live instance on the dynamic canvas. -/
theorem C3_render_twice_one_live_witness :
    ∃ s1 s2,
      renderDynamicChart ⟨true, true, true⟩
        ⟨some "bar", some "A", none, ["x"], [1]⟩ regInit = Except.ok s1 ∧
      renderDynamicChart ⟨true, true, true⟩
        ⟨some "line", some "B", none, ["y"], [2]⟩ s1 = Except.ok s2 ∧
      liveOn s2 "dynamicChart" =
        [⟨s1.nextId, "dynamicChart",
          dynamicChartConfig ⟨some "line", some "B", none, ["y"], [2]⟩⟩] ∧
      s2.dynamicSlot = some s1.nextId ∧
      (liveOn s2 "dynamicChart").length = 1 :=
  (C3_render_twice_one_live ⟨true, true, true⟩
    ⟨some "bar", some "A", none, ["x"], [1]⟩
    ⟨some "line", some "B", none, ["y"], [2]⟩ regInit rfl rfl rfl
    (by refine ⟨?_, ?_, ?_, ?_, ?_⟩ <;> simp [regInit, liveCharts])).1

/-- Claim C7: rendering into a slot whose surface is gone is a safe
no-op — `renderDynamicChart` returns the state unchanged (no chart
constructed, no crash) when `#chartPanel` or the `#dynamicChart`
canvas is absent, `createDemoChart` leaves the chart ref untouched and
destroys nothing when its canvas is absent, and `loadOverviewChart`
does the same whatever the fetch returned. -/
theorem C7_missing_surface_noop (dom : DynDom) (cd : ChartData)
    (s : RegistryState) (cid : String) (d : List (String × ℚ)) (t : String)
    (ref oc : Option ChartInstance) (fid fid2 : Nat) (env : DemoEnvelope)
    (m : String) (h : dom.panel = false ∨ dom.ctx = false) :
    renderDynamicChart dom cd s = Except.ok s ∧
    createDemoChart cid false d t ref fid = (ref, []) ∧
    loadOverviewChart false (Fetched.ok env) oc fid2 = (oc, []) ∧
    loadOverviewChart false (Fetched.network m) oc fid2 = (oc, []) := by
  refine ⟨?_, rfl, ?_, rfl⟩
  · unfold renderDynamicChart
    rcases h with h | h <;> simp [h]
  · unfold loadOverviewChart
    by_cases hs : env.success <;> simp [hs]

/-- Witness for C7: with the dynamic canvas absent, a render leaves
the pristine registry untouched. -/
theorem C7_missing_surface_noop_witness :
    renderDynamicChart ⟨true, true, false⟩
      ⟨some "bar", none, none, ["x"], [1]⟩ regInit = Except.ok regInit ∧
    createDemoChart "genderChart" false [] "gender" none 0 = (none, []) ∧
    loadOverviewChart false (Fetched.ok ⟨true, ⟨[], [], []⟩, ""⟩) none 0 = (none, []) ∧
    loadOverviewChart false (Fetched.network "offline") none 0 = (none, []) :=
  C7_missing_surface_noop ⟨true, true, false⟩
    ⟨some "bar", none, none, ["x"], [1]⟩ regInit "genderChart" [] "gender"
    none none 0 0 ⟨true, ⟨[], [], []⟩, ""⟩ "offline" (Or.inr rfl)

/-- Claim C4, as stated, is false on the code: on an unknown screen id
the click handler removes `active` from every screen and
`getElementById(screenId)?.classList.add` activates nothing, so zero
screens — not exactly one — are active afterwards, and the header
title falls back to the raw id rather than the mapping. -/
theorem C4_counterexample :
    (navRun navInit ["chat", "bogus"]).activeScreens = [] ∧
    ¬ (navRun navInit ["chat", "bogus"]).activeScreens.length = 1 ∧
    (navRun navInit ["chat", "bogus"]).pageTitle = "bogus" := by
  refine ⟨by decide, by decide, by decide⟩

/-- Claim C4 (amended): after each `selectScreen` call at most one
screen is active — exactly the selected one when its id names an
existing screen, and none at all on an unknown id; the title is the
mapping entry with the raw id as fallback; `loadScreenData` runs
exactly once per call, firing a refresh only for the five data
screens (and never crashing on unknown ids, the whole handler being a
total function). -/
theorem C4_select_screen_spec (s : NavState) (id : String) :
    (selectScreen id s).activeScreens.length ≤ 1 ∧
    (id ∈ screenElems → (selectScreen id s).activeScreens = [id]) ∧
    (id ∉ screenElems → (selectScreen id s).activeScreens = []) ∧
    (selectScreen id s).pageTitle = (pageNames.lookup id).getD id ∧
    (selectScreen id s).refreshLog =
      s.refreshLog ++ (if id ∈ dataScreens then [id] else []) := by
  unfold selectScreen loadScreenData
  by_cases hm : id ∈ screenElems <;> simp [hm]

/-- Witness for C4 (amended): selecting the chat screen activates
exactly the chat screen. -/
theorem C4_select_screen_spec_witness :
    (selectScreen "chat" navInit).activeScreens = ["chat"] :=
  (C4_select_screen_spec navInit "chat").2.1 (by decide)

/-- Claim C5, as stated, is false on the code: a network failure in
`loadDashboard` is caught and logged to the console only — no DOM
write, no user-visible error state — and a `success: false` envelope
in `performSearch` falls through the missing `else` branch, leaving
the panel stuck in the loading state instead of an error state. -/
theorem C5_counterexample :
    (loadDashboard (Fetched.network "Failed to fetch")).writes = [] ∧
    (loadDashboard (Fetched.network "Failed to fetch")).consoleErrors ≠ [] ∧
    (performSearch "sewage" false (Fetched.ok ⟨false, [], "boom"⟩)).panel
      = PanelState.loading := by
  refine ⟨by decide, by decide, by decide⟩

/-- Claim C5 (amended): chat converts both failure kinds into
assistant-styled inline error bubbles, and search converts a network
failure into an explicit error state; but a backend `success: false`
in search leaves the loading indicator with no error state, and
dashboard failures (network error or `success: false` envelope)
produce no user-visible message at all — a console log at most. -/
theorem C5_error_surfacing (m : String) (env : StatsEnvelope) (q : String)
    (so : Bool) (senv : SearchEnvelope) (st : ChatState) (reqId : Nat)
    (cenv : ChatEnvelope) (p : PendingReq) :
    (loadDashboard (Fetched.network m) = ⟨[], ["Dashboard error: " ++ m], false⟩) ∧
    (env.success = false → loadDashboard (Fetched.ok env) = ⟨[], [], false⟩) ∧
    (jsTrim q ≠ "" → (performSearch q so (Fetched.network m)).panel
      = PanelState.errorState ("Error: " ++ m)) ∧
    (jsTrim q ≠ "" → senv.success = false →
      (performSearch q so (Fetched.ok senv)).panel = PanelState.loading) ∧
    (st.pending.find? (fun r => r.reqId == reqId) = some p →
      Entry.msg "assistant" ("Connection error: " ++ m) ∈
        (chatStep st (ChatEvent.resolve reqId (ChatOutcome.network m))).transcript) ∧
    (st.pending.find? (fun r => r.reqId == reqId) = some p →
      cenv.success = false →
      Entry.msg "assistant" ("Error: " ++ cenv.error) ∈
        (chatStep st (ChatEvent.resolve reqId (ChatOutcome.reply cenv))).transcript) := by
  refine ⟨rfl, ?_, ?_, ?_, ?_, ?_⟩
  · intro hs
    unfold loadDashboard
    simp [hs]
  · intro hq
    unfold performSearch
    simp [hq]
  · intro hq hs
    unfold performSearch
    simp [hq, hs]
  · intro hp
    show Entry.msg "assistant" ("Connection error: " ++ m) ∈
      (resolveStep reqId (ChatOutcome.network m) st).transcript
    unfold resolveStep
    rw [hp]
    simp [addMessageToChat]
  · intro hp hs
    show Entry.msg "assistant" ("Error: " ++ cenv.error) ∈
      (resolveStep reqId (ChatOutcome.reply cenv) st).transcript
    unfold resolveStep
    rw [hp]
    simp [hs, addMessageToChat]

/-- Witness for C5 (amended): at a concrete state, the chat network
failure produces its inline error bubble and the search backend error
leaves the loading state. -/
theorem C5_error_surfacing_witness :
    Entry.msg "assistant" ("Connection error: " ++ "offline") ∈
      (chatStep { chatInit with pending := [⟨0, "q", none⟩] }
        (ChatEvent.resolve 0 (ChatOutcome.network "offline"))).transcript ∧
    (performSearch "sewage" true (Fetched.ok ⟨false, [], "boom"⟩)).panel
      = PanelState.loading :=
  ⟨(C5_error_surfacing "offline" ⟨true, ⟨0, 0, 0, 0⟩, ""⟩ "sewage" true
      ⟨false, [], "boom"⟩ { chatInit with pending := [⟨0, "q", none⟩] } 0
      ⟨true, ⟨none, "", none⟩, ""⟩ ⟨0, "q", none⟩).2.2.2.2.1 (by decide),
   (C5_error_surfacing "x" ⟨true, ⟨0, 0, 0, 0⟩, ""⟩ "sewage" true
      ⟨false, [], "boom"⟩ chatInit 0
      ⟨true, ⟨none, "", none⟩, ""⟩ ⟨0, "q", none⟩).2.2.2.1 (by decide) rfl⟩

/-- The spec's colour-assignment policy, modelled from its words: the
colour of position `i` is `palette[i % palette.length]` — the palette
cycles when there are more positions than colours. -/
def specCycleColors (n : Nat) : List String :=
  (List.range n).map (fun i => palette.getD (i % palette.length) "")

/-- Claim C9, as stated, is false on the code: for a seven-label chart
the client passes `colors.slice(0, 7)`, which truncates to the six
palette entries — position 6 receives no colour at all instead of
cycling back to the first palette colour. -/
theorem C9_counterexample :
    (dynamicChartConfig ⟨some "bar", none, none,
      ["a", "b", "c", "d", "e", "f", "g"], [1, 2, 3, 4, 5, 6, 7]⟩).backgroundColor.length
      = 6 ∧
    (dynamicChartConfig ⟨some "bar", none, none,
      ["a", "b", "c", "d", "e", "f", "g"], [1, 2, 3, 4, 5, 6, 7]⟩).backgroundColor.get? 6
      = none ∧
    (dynamicChartConfig ⟨some "bar", none, none,
      ["a", "b", "c", "d", "e", "f", "g"], [1, 2, 3, 4, 5, 6, 7]⟩).backgroundColor
      ≠ specCycleColors 7 := by
  refine ⟨by decide, by decide, by decide⟩

/-- Claim C9 (amended): colours are assigned from the fixed palette by
position via truncation (`slice`), which agrees with the spec's
cycling policy exactly while the number of positions does not exceed
the palette length; beyond the palette length the client assigns no
colour (no cycling). -/
theorem C9_palette_truncates (cd : ChartData)
    (h : cd.labels.length ≤ palette.length) :
    (dynamicChartConfig cd).backgroundColor = palette.take cd.labels.length ∧
    (dynamicChartConfig cd).backgroundColor = specCycleColors cd.labels.length := by
  have key : ∀ n, n < 7 → palette.take n = specCycleColors n := by decide
  have hlt : cd.labels.length < 7 := by
    have : palette.length = 6 := by decide
    omega
  exact ⟨rfl, key _ hlt⟩

/-- Witness for C9 (amended): a three-label chart gets the first three
palette colours, matching the cycling policy. -/
theorem C9_palette_truncates_witness :
    (dynamicChartConfig ⟨none, none, none, ["x", "y", "z"], [1, 2, 3]⟩).backgroundColor
      = specCycleColors 3 :=
  (C9_palette_truncates ⟨none, none, none, ["x", "y", "z"], [1, 2, 3]⟩ (by decide)).2

/-- Claim C10: when `GET /complaint-types` returns an empty sequence,
`loadCategories` still constructs the category chart over empty labels
and data (destroying any previous chart), then `categories[0]` is
`undefined` and reading `.category` throws; the `catch` swallows the
error into a console log, the findings list is left untouched, and no
error state is surfaced to the user — stating the call as a total
function into its effect record is the proof that nothing escapes. -/
theorem C10_empty_categories :
    loadCategories ⟨true, true⟩ true (Fetched.ok ⟨true, [], ""⟩) =
      { newChart := some ([], []), destroyedOld := true, findingsHtml := none,
        consoleErrors := ["Categories error: TypeError: most is undefined"] } ∧
    loadCategories ⟨true, true⟩ false (Fetched.ok ⟨true, [], ""⟩) =
      { newChart := some ([], []), destroyedOld := false, findingsHtml := none,
        consoleErrors := ["Categories error: TypeError: most is undefined"] } := by
  refine ⟨by decide, by decide⟩

theorem fracDigits_half : fracDigits 17 ((1 : ℚ)/2) = "5" := by
  show fracDigits (16 + 1) ((1 : ℚ)/2) = "5"
  rw [fracDigits]
  rw [if_neg (by norm_num)]
  have h5 : (1 : ℚ)/2 * 10 = 5 := by norm_num
  rw [h5]
  show (toString (⌊(5 : ℚ)⌋.toNat) ++ fracDigits 16 ((5 : ℚ) - ↑⌊(5 : ℚ)⌋)) = "5"
  have hfl5 : ⌊(5 : ℚ)⌋ = 5 := by rw [Int.floor_eq_iff]; norm_num
  rw [hfl5]
  rw [show ((5 : ℚ) - ↑(5 : ℤ)) = 0 by norm_num]
  rw [show fracDigits 16 0 = "" by rw [fracDigits]; rw [if_pos rfl]]
  decide

theorem posNumToString_rate : posNumToString ((425 : ℚ)/10) = "42.5" := by
  unfold posNumToString
  have hfl : ⌊(425 : ℚ)/10⌋ = 42 := by rw [Int.floor_eq_iff]; norm_num
  rw [hfl]
  rw [show ((425 : ℚ)/10 - ↑(42 : ℤ)) = (1 : ℚ)/2 by push_cast; norm_num]
  rw [if_neg (by norm_num)]
  rw [fracDigits_half]
  decide

theorem jsNumToString_rate : jsNumToString ((425 : ℚ)/10) = "42.5" := by
  unfold jsNumToString
  rw [if_neg (by norm_num)]
  exact posNumToString_rate

/-- Claim C8: the displayed silenced count is
`Math.round(total_complaints * silence_rate / 100)` (locale-formatted),
which coincides with the mathematical round-half-up, and the alert
text embeds the rate and the locale-formatted count; on the scenario
payload `{total_complaints: 10000, silence_rate: 42.5, ...}` the
displayed count is `4,250` and the alert text is exactly
`42.5% of complaints (4,250 cases) are being systematically ignored`. -/
theorem C8_silenced_derivation :
    (∀ d : StatsData,
      ((loadDashboard (Fetched.ok ⟨true, d, ""⟩)).writes).lookup "silencedCount"
        = some (intLocaleString
            (jsRound ((d.total_complaints : ℚ) * d.silence_rate / 100))) ∧
      ((loadDashboard (Fetched.ok ⟨true, d, ""⟩)).writes).lookup "alertText"
        = some (jsNumToString d.silence_rate ++ "% of complaints (" ++
            intLocaleString
              (jsRound ((d.total_complaints : ℚ) * d.silence_rate / 100)) ++
            " cases) are being systematically ignored")) ∧
    (∀ q : ℚ, jsRound q = round q) ∧
    ((loadDashboard (Fetched.ok
        ⟨true, ⟨10000, 425/10, 61, 378/10⟩, ""⟩)).writes.lookup "silencedCount"
      = some "4,250") ∧
    ((loadDashboard (Fetched.ok
        ⟨true, ⟨10000, 425/10, 61, 378/10⟩, ""⟩)).writes.lookup "alertText"
      = some "42.5% of complaints (4,250 cases) are being systematically ignored") := by
  have hA : jsRound (((10000 : ℕ) : ℚ) * ((425 : ℚ)/10) / 100) = 4250 := by
    unfold jsRound
    rw [Int.floor_eq_iff]
    push_cast
    norm_num
  have hB : intLocaleString (4250 : ℤ) = "4,250" := by decide
  refine ⟨fun d => ⟨rfl, rfl⟩, fun q => (round_eq q).symm, ?_, ?_⟩
  · have g1 : ((loadDashboard (Fetched.ok
        ⟨true, ⟨10000, 425/10, 61, 378/10⟩, ""⟩)).writes).lookup "silencedCount"
        = some (intLocaleString
            (jsRound (((10000 : ℕ) : ℚ) * ((425 : ℚ)/10) / 100))) := rfl
    rw [g1, hA, hB]
  · have g2 : ((loadDashboard (Fetched.ok
        ⟨true, ⟨10000, 425/10, 61, 378/10⟩, ""⟩)).writes).lookup "alertText"
        = some (jsNumToString ((425 : ℚ)/10) ++ "% of complaints (" ++
            intLocaleString
              (jsRound (((10000 : ℕ) : ℚ) * ((425 : ℚ)/10) / 100)) ++
            " cases) are being systematically ignored") := rfl
    rw [g2, hA, hB, jsNumToString_rate]
    decide

end Sentinel
